import Mathlib

/-!
Verification development for the link-directories Site Profiling & Smart
Submission Engine.  JavaScript strings are modelled as lists of characters,
JS objects/Maps as association lists that preserve insertion order, and the
browser page as explicit environment data (which selectors resolve, which
navigations fail, the text content of clickable elements).  Effectful
methods are embedded as pure functions that return their result together
with a trace of the browser actions they perform; a thrown-and-caught JS
error is explicit data, never a Lean exception, so totality of a definition
models the source's "never raises past its own catch" behaviour.
-/

namespace LinkDir

/-- JS strings as character lists. -/
abbrev Str := List Char

/-- ASCII lower-casing of one character, as used by `toLowerCase` on the
ASCII tokens the classifiers compare against. -/
def jsLowerChar (c : Char) : Char :=
  if 65 ≤ c.toNat ∧ c.toNat ≤ 90 then Char.ofNat (c.toNat + 32) else c

/-- Model of `String.prototype.toLowerCase` restricted to ASCII letters. -/
def jsLower (s : Str) : Str := s.map jsLowerChar

/-- Whitespace test used by the model of `String.prototype.trim`. -/
def jsIsSpace (c : Char) : Bool :=
  c == ' ' || c == '\t' || c == '\n' || c == '\r'

/-- Model of `String.prototype.trim`. -/
def jsTrim (s : Str) : Str :=
  ((s.dropWhile jsIsSpace).reverse.dropWhile jsIsSpace).reverse

/-- Does `s` start with `p`?  Helper for the `includes` model. -/
def strStartsWith : Str → Str → Bool
  | _, [] => true
  | [], _ :: _ => false
  | a :: s, b :: p => a == b && strStartsWith s p

/-- Model of `String.prototype.includes`: `strIncludes s p` is true when
`p` occurs as a contiguous substring of `s`. -/
def strIncludes (s p : Str) : Bool :=
  match s with
  | [] => strStartsWith [] p
  | _ :: t => strStartsWith s p || strIncludes t p

/-- JS `a || b` on strings (empty string is falsy). -/
def jsOr (a b : Str) : Str := if a = [] then b else a

/-- JS truthiness of an optional string property: absent and `""` are
falsy. -/
def optTruthy : Option Str → Bool
  | none => false
  | some s => !(s == [])

/-- Model of the first match of the regex `>([^<]+)<`: scanning left to
right, the first `>` that is followed by at least one non-`<` character
and then a `<`; the capture is that maximal run of non-`<` characters. -/
def jsTextBetween : Str → Option Str
  | [] => none
  | c :: rest =>
    if c == '>' then
      let span := rest.takeWhile (fun d => d != '<')
      if span ≠ [] ∧ rest.drop span.length ≠ [] then some span
      else jsTextBetween rest
    else jsTextBetween rest

/-- Model of the first match of a regex `LIT([^"]+)"` where `LIT` is a
literal such as `data-modal="`: find the first position where the literal
occurs followed by a non-empty run of non-quote characters and a closing
quote; on a failed capture the scan resumes one character later, as the JS
regex engine does. -/
def jsAttrMatch (lit : Str) : Str → Option Str
  | [] => none
  | c :: rest =>
    if strStartsWith (c :: rest) lit then
      let after := (c :: rest).drop lit.length
      let span := after.takeWhile (fun d => d != '"')
      if span ≠ [] ∧ after.drop span.length ≠ [] then some span
      else jsAttrMatch lit rest
    else jsAttrMatch lit rest

/-- Model of `s.split(' ')[0]`: the characters before the first space. -/
def jsFirstToken (s : Str) : Str := s.takeWhile (fun c => c != ' ')

/-- RawFieldDescriptor: the attributes extracted for one form control
(`field-analyzer.js` page-context extraction). -/
structure RawField where
  type : Str
  name : Str
  id : Str
  placeholder : Str
  required : Bool
  label : Str
  pattern : Str
  minLength : Nat
  maxLength : Nat
deriving DecidableEq

/-- The normalisation shared by both classifiers:
`(field.name || field.id || field.label).toLowerCase()`. -/
def normalizeFieldName (f : RawField) : Str :=
  jsLower (jsOr f.name (jsOr f.id f.label))

namespace FieldAnalyzer

/-- FieldAnalyzer.getFieldKey (field-analyzer.js lines 180-220): the rule
chain mapping a raw descriptor to a canonical field key, first match
wins; the fallback is the normalised name, then the raw id, then
`unknown`. -/
def getFieldKey (f : RawField) : Str :=
  let nm := normalizeFieldName f
  let ty := jsLower f.type
  if strIncludes nm ( "name".data) && !strIncludes nm ( "first".data)
      && !strIncludes nm ( "last".data) then "name".data
  else if strIncludes nm ( "first".data) && strIncludes nm ( "name".data) then "firstName".data
  else if strIncludes nm ( "last".data) && strIncludes nm ( "name".data) then "lastName".data
  else if strIncludes nm ( "email".data) || ty == "email".data then "email".data
  else if strIncludes nm ( "url".data) || strIncludes nm ( "website".data)
      || strIncludes nm ( "link".data) then "url".data
  else if strIncludes nm ( "description".data) || ty == "textarea".data then "description".data
  else if strIncludes nm ( "category".data) then "category".data
  else if strIncludes nm ( "tag".data) then "tags".data
  else if strIncludes nm ( "title".data) then "title".data
  else if strIncludes nm ( "company".data) || strIncludes nm ( "organization".data) then "company".data
  else if strIncludes nm ( "phone".data) || ty == "tel".data then "phone".data
  else if strIncludes nm ( "twitter".data) then "twitter".data
  else if strIncludes nm ( "linkedin".data) then "linkedin".data
  else if strIncludes nm ( "github".data) then "github".data
  else if strIncludes nm ( "logo".data) || strIncludes nm ( "image".data) then "logo".data
  else if strIncludes nm ( "screenshot".data) then "screenshot".data
  else if strIncludes nm ( "video".data) then "video".data
  else if strIncludes nm ( "pricing".data) || strIncludes nm ( "price".data) then "pricing".data
  else jsOr nm (jsOr f.id ( "unknown".data))

end FieldAnalyzer

namespace DirectoriesCLI

/-- DirectoriesCLI.mapFieldToKey (cli.js lines 323-338): the CLI's copy of
the classification chain; unmatched descriptors map to `null`. -/
def mapFieldToKey (f : RawField) : Option Str :=
  let nm := normalizeFieldName f
  let ty := jsLower f.type
  if strIncludes nm ( "name".data) && !strIncludes nm ( "first".data)
      && !strIncludes nm ( "last".data) then some ( "name".data)
  else if strIncludes nm ( "first".data) && strIncludes nm ( "name".data) then some ( "firstName".data)
  else if strIncludes nm ( "last".data) && strIncludes nm ( "name".data) then some ( "lastName".data)
  else if strIncludes nm ( "email".data) || ty == "email".data then some ( "email".data)
  else if strIncludes nm ( "url".data) || strIncludes nm ( "website".data)
      || ty == "url".data then some ( "url".data)
  else if strIncludes nm ( "description".data) || ty == "textarea".data then some ( "description".data)
  else if strIncludes nm ( "category".data) then some ( "category".data)
  else if strIncludes nm ( "tag".data) then some ( "tags".data)
  else if strIncludes nm ( "title".data) then some ( "title".data)
  else none

end DirectoriesCLI

/-- One value of the `allFields` accumulator map: the first descriptor seen
for the key (the JS spread keeps it), an occurrence count, and the list of
contributing site names. -/
structure TrackedField where
  field : RawField
  count : Nat
  sites : List Str
deriving DecidableEq

/-- The `allFields` JS `Map`, modelled as an insertion-ordered association
list with unique keys. -/
abbrev FieldMap := List (Str × TrackedField)

/-- One step of the tracking loop in FieldAnalyzer.analyzeDirectory
(field-analyzer.js lines 143-156): a new key is appended with count 1 and
one site, an existing key has its count bumped and the site name pushed
(duplicates per site are not suppressed). -/
def upsertField (m : FieldMap) (key site : Str) (f : RawField) : FieldMap :=
  if (m.lookup key).isSome then
    m.map (fun kv =>
      if kv.1 = key then
        (kv.1, { kv.2 with count := kv.2.count + 1, sites := kv.2.sites ++ [site] })
      else kv)
  else m ++ [(key, { field := f, count := 1, sites := [site] })]

/-- The per-site part of the tracking loop: fold `upsertField` over the
fields extracted from one site, classifying each with `getFieldKey`. -/
def trackSite (m : FieldMap) (site : Str) (fields : List RawField) : FieldMap :=
  fields.foldl (fun acc f => upsertField acc (FieldAnalyzer.getFieldKey f) site f) m

/-- A whole analysis run: every analysed site contributes its extracted
fields to the shared accumulator, starting from the empty map. -/
def runAnalysis (sites : List (Str × List RawField)) : FieldMap :=
  sites.foldl (fun acc s => trackSite acc s.1 s.2) []

/-- Model of `Math.round((count / len) * 100)` on the exact rational:
`floor(100 * count / len + 1/2)`. -/
def jsRoundPct (count len : Nat) : Nat := (200 * count + len) / (2 * len)

/-- FieldStat: one record of the aggregated output. -/
structure FieldStat where
  fieldKey : Str
  field : RawField
  count : Nat
  sites : List Str
  frequency : Nat
deriving DecidableEq

/-- FieldAnalyzer.getFieldRequirements (field-analyzer.js lines 287-300):
sort the accumulator entries by descending count (stable, as JS `sort`)
and report each with `frequency = Math.round(count / sites.length * 100)`. -/
def getFieldRequirements (m : FieldMap) : List FieldStat :=
  (m.mergeSort (fun a b => b.2.count ≤ a.2.count)).map
    (fun kv =>
      { fieldKey := kv.1, field := kv.2.field, count := kv.2.count,
        sites := kv.2.sites, frequency := jsRoundPct kv.2.count kv.2.sites.length })

/-- The live page as seen by the reveal-control click helpers: the set of
selectors on which `page.click` finds an element, and the `textContent` of
each element matching `button, a`, in document order. -/
structure PageDom where
  clickables : List Str
  buttonTexts : List Str
deriving DecidableEq

/-- Does `page.click(sel)` find an element (and so not throw)? -/
def pageClick (p : PageDom) (sel : Str) : Bool := p.clickables.contains sel

/-- The in-page evaluation of tier 2: is there a button/link whose
`textContent` includes the extracted snippet text? -/
def findByText (p : PageDom) (t : Str) : Bool :=
  p.buttonTexts.any (fun tc => strIncludes tc t)

/-- The click a resolution tier performs. -/
inductive ClickAction where
  | selector (sel : Str)
  | byText (t : Str)
deriving DecidableEq

/-- How `clickButtonFromHtml` can fail: a `page.click` on a missing
element throws puppeteer's own error, which the method does not catch; or
the method's final explicit `Error('Could not find button')`. -/
inductive ClickErr where
  | selectorNotFound (sel : Str)
  | couldNotFindButton
deriving DecidableEq

/-- The selector string built for tier 3: `[data-modal="v"]`. -/
def dataModalSelector (v : Str) : Str :=
  "[data-modal=\"".data ++ v ++ "\"]".data

/-- The selector string built for tier 4: `.` followed by the first class
token. -/
def classSelector (cls : Str) : Str := '.' :: jsFirstToken cls

namespace FieldAnalyzer

/-- FieldAnalyzer.clickButtonFromHtml (field-analyzer.js lines 229-271):
tier 1 uses a markup-free snippet directly as a selector; tier 2 extracts
inner text and clicks the first button/link containing it; tier 3 clicks
by extracted `data-modal` attribute; tier 4 clicks by the first class
token; the explicit error is raised only when every extraction/match
falls through.  A `page.click` failure propagates uncaught. -/
def clickButtonFromHtml (page : PageDom) (htmlString : Str) : Except ClickErr ClickAction :=
  if !strIncludes htmlString ( "<".data) then
    if pageClick page htmlString then .ok (.selector htmlString)
    else .error (.selectorNotFound htmlString)
  else
    let buttonText := ((jsTextBetween htmlString).map jsTrim).getD []
    if buttonText ≠ [] ∧ findByText page buttonText then .ok (.byText buttonText)
    else
      match jsAttrMatch ( "data-modal=\"".data) htmlString with
      | some v =>
        if pageClick page (dataModalSelector v) then .ok (.selector (dataModalSelector v))
        else .error (.selectorNotFound (dataModalSelector v))
      | none =>
        match jsAttrMatch ( "class=\"".data) htmlString with
        | some cls =>
          if pageClick page (classSelector cls) then .ok (.selector (classSelector cls))
          else .error (.selectorNotFound (classSelector cls))
        | none => .error .couldNotFindButton

end FieldAnalyzer

namespace SmartSubmissionBot

/-- SmartSubmissionBot.clickButtonFromHtml (smart-submission-bot.js lines
151-193): the smart bot's copy of the four-tier reveal-control
resolution, transliterated from its own method body. -/
def clickButtonFromHtml (page : PageDom) (htmlString : Str) : Except ClickErr ClickAction :=
  if !strIncludes htmlString ( "<".data) then
    if pageClick page htmlString then .ok (.selector htmlString)
    else .error (.selectorNotFound htmlString)
  else
    let buttonText := ((jsTextBetween htmlString).map jsTrim).getD []
    if buttonText ≠ [] ∧ findByText page buttonText then .ok (.byText buttonText)
    else
      match jsAttrMatch ( "data-modal=\"".data) htmlString with
      | some v =>
        if pageClick page (dataModalSelector v) then .ok (.selector (dataModalSelector v))
        else .error (.selectorNotFound (dataModalSelector v))
      | none =>
        match jsAttrMatch ( "class=\"".data) htmlString with
        | some cls =>
          if pageClick page (classSelector cls) then .ok (.selector (classSelector cls))
          else .error (.selectorNotFound (classSelector cls))
        | none => .error .couldNotFindButton

end SmartSubmissionBot

/-- DirectoryRecord as the bots consume it (`submit_url`/`submit_button`
come from the directory store; the empty string models an absent or empty
CSV cell, both falsy in JS). -/
structure Directory where
  name : Str
  url : Str
  submit_url : Str
  submit_button : Str
deriving DecidableEq

/-- One option of a select element, as extracted in the page context. -/
structure DomOption where
  value : Str
  text : Str
deriving DecidableEq

/-- One FieldMapping entry of a persisted SiteConfig.  The CLI generator
stores `name`/`id` alongside; the site-inspector generator stores select
`options`; absent keys default. -/
structure FieldCfg where
  selector : Str
  type : Str
  name : Option Str := none
  id : Option Str := none
  options : List DomOption := []
deriving DecidableEq

/-- The persisted submit-button descriptor of a SiteConfig form block. -/
structure SubmitBtnCfg where
  selector : Str
  text : Option Str := none
deriving DecidableEq

/-- The persisted `form` block of a SiteConfig. -/
structure FormCfg where
  fields : List (Str × FieldCfg)
  submitButton : Option SubmitBtnCfg
  index : Option Nat := none
  action : Option Str := none
  method : Option Str := none
deriving DecidableEq

/-- A submission link collected by the site inspector. -/
structure SubmissionLink where
  text : Str
  href : Str
deriving DecidableEq

/-- A persisted SiteConfig record.  JS keys that a producer leaves absent
are modelled by their falsy defaults: `false`, `none`, `[]`. -/
structure SiteConfig where
  url : Str
  hasForm : Bool := false
  requiresCaptcha : Bool := false
  submissionMethod : Option Str := none
  manualSubmissionRequired : Bool := false
  error : Option Str := none
  form : Option FormCfg := none
  submissionLinks : List SubmissionLink := []
  recommendedLink : Option SubmissionLink := none
deriving DecidableEq

/-- The browser-automation environment one `submitToDirectory` call runs
against, kept static for the duration of the call: which `page.goto`
targets throw (with their message), which selectors `page.$` resolves,
which resolved elements throw during click/type/select, and the DOM data
the reveal-click helper inspects. -/
structure BrowserEnv where
  dom : PageDom
  gotoFailures : List (Str × Str) := []
  present : List Str := []
  interactFailures : List Str := []
deriving DecidableEq

/-- Bot configuration options recognised by the submission bots. -/
structure BotConfig where
  timeout : Nat := 30000
  delayBetweenSubmissions : Nat := 5000
  screenshotOnError : Bool := true
deriving DecidableEq

/-- Which fill strategy a filled field used. -/
inductive FillKind where
  | selected
  | typedArea
  | typed
deriving DecidableEq

/-- The observable browser actions of one submission attempt, in order. -/
inductive Event where
  | goto (url : Str)
  | waitMs (n : Nat)
  | analyzedPage
  | screenshot (tag : Str)
  | revealClicked (a : ClickAction)
  | revealFailed (e : ClickErr)
  | fieldNoValue (key : Str)
  | fieldQuery (key sel : Str)
  | fieldNotFound (key sel : Str)
  | fieldFillError (key : Str)
  | fieldFilled (key : Str) (kind : FillKind)
  | submitClicked (sel : Str)
  | submitNotFound (sel : Str)
deriving DecidableEq

/-- SubmissionResult.  A JS result object without a `requiresManual` key
is modelled with `requiresManual := false` (both are falsy); the success
result's `siteConfig` payload is carried in `siteConfig`. -/
structure SubmissionResult where
  success : Bool
  message : Str
  requiresManual : Bool := false
  siteConfig : Option FormCfg := none
deriving DecidableEq

namespace SmartSubmissionBot

/-- The body of the `for (const [fieldName, fieldConfig] of
Object.entries(fieldMapping))` loop in fillFormWithMapping
(smart-submission-bot.js lines 199-232): a falsy value skips the field; a
selector `page.$` cannot resolve is logged and skipped; an interaction
error is caught per field; otherwise the field is filled by the declared
type's strategy. -/
def fillOneField (env : BrowserEnv) (data : List (Str × Str)) (kv : Str × FieldCfg) :
    List Event :=
  match data.lookup kv.1 with
  | none => [Event.fieldNoValue kv.1]
  | some v =>
    if v = [] then [Event.fieldNoValue kv.1]
    else if env.present.contains kv.2.selector then
      if env.interactFailures.contains kv.2.selector then
        [Event.fieldQuery kv.1 kv.2.selector, Event.fieldFillError kv.1]
      else
        [Event.fieldQuery kv.1 kv.2.selector,
         Event.fieldFilled kv.1
           (if kv.2.type == "select".data then FillKind.selected
            else if kv.2.type == "textarea".data then FillKind.typedArea
            else FillKind.typed)]
    else [Event.fieldQuery kv.1 kv.2.selector, Event.fieldNotFound kv.1 kv.2.selector]

/-- SmartSubmissionBot.fillFormWithMapping (smart-submission-bot.js lines
198-233): run the per-field body over the mapping entries in insertion
order; every failure mode is absorbed per field, so the routine is total
and returns only its action trace. -/
def fillFormWithMapping (env : BrowserEnv) (fieldMapping : List (Str × FieldCfg))
    (data : List (Str × Str)) : List Event :=
  fieldMapping.flatMap (fillOneField env data)

/-- SmartSubmissionBot.submitFormWithSelector (smart-submission-bot.js
lines 238-261): resolve the submit selector; a missing element returns
false, a resolved element is clicked (a click failure is caught and also
returns false; the wait-for-navigation is best-effort either way). -/
def submitFormWithSelector (env : BrowserEnv) (selector : Str) : Bool × List Event :=
  if env.present.contains selector then
    if env.interactFailures.contains selector then (false, [Event.submitClicked selector])
    else (true, [Event.submitClicked selector])
  else (false, [Event.submitNotFound selector])

end SmartSubmissionBot

/-- SubmissionBot.visitDirectory (submission-bot.js lines 45-77): navigate
and analyze the page; a navigation failure is caught, optionally
screenshotted, and reported as a failed result.  No field is ever
filled. -/
def visitDirectory (env : BrowserEnv) (cfg : BotConfig) (url nm : Str) :
    SubmissionResult × List Event :=
  match env.gotoFailures.lookup url with
  | none =>
    ({ success := true, message := "Successfully visited ".data ++ nm },
     [Event.goto url, Event.waitMs 2000, Event.analyzedPage])
  | some e =>
    ({ success := false, message := "Failed to visit ".data ++ nm ++ ": ".data ++ e },
     [Event.goto url] ++ (if cfg.screenshotOnError then [Event.screenshot nm] else []))

/-- The navigation target of one submission attempt
(smart-submission-bot.js lines 52-56): `submit_url` when present and
non-blank, else the generic `url`. -/
def targetUrlOf (directory : Directory) : Str :=
  if directory.submit_url ≠ [] ∧ jsTrim directory.submit_url ≠ [] then
    directory.submit_url
  else directory.url

namespace SmartSubmissionBot

/-- The reveal-click step of submitToDirectory (smart-submission-bot.js
lines 88-101): attempted only when `submit_button` is non-blank and
`submit_url` is falsy (note: the untrimmed `submit_url`, unlike the
navigation-target test); its failure is caught and logged. -/
def revealEventsOf (env : BrowserEnv) (directory : Directory) : List Event :=
  if directory.submit_button ≠ [] ∧ jsTrim directory.submit_button ≠ [] ∧
      directory.submit_url = [] then
    match clickButtonFromHtml env.dom directory.submit_button with
    | .ok a => [Event.revealClicked a, Event.waitMs 2000]
    | .error e => [Event.revealFailed e]
  else []

/-- SmartSubmissionBot.submitToDirectory (smart-submission-bot.js lines
44-146): no stored config falls back to a plain page visit; a config
flagged `manualSubmissionRequired` or carrying a truthy `error`
short-circuits to a `requiresManual` result before any navigation; the
navigation target prefers a non-blank `submit_url`; the reveal click runs
only when `submit_button` is non-blank and `submit_url` is falsy; the form
is filled via the mapping, the fixed 30000 ms CAPTCHA pause is taken when
`requiresCaptcha` is set, and the configured submit button is activated.
Only `page.goto` can throw to the outer catch. -/
def submitToDirectory (env : BrowserEnv) (cfg : BotConfig)
    (siteConfigs : List (Str × SiteConfig)) (directory : Directory)
    (data : List (Str × Str)) : SubmissionResult × List Event :=
  match siteConfigs.lookup directory.name with
  | none => visitDirectory env cfg directory.url directory.name
  | some sc =>
    let targetUrl := targetUrlOf directory
    if sc.manualSubmissionRequired || optTruthy sc.error then
      ({ success := false, message := "Manual submission required".data,
         requiresManual := true }, [])
    else
      match env.gotoFailures.lookup targetUrl with
      | some e =>
        ({ success := false, message := "Submission failed: ".data ++ e },
         [Event.goto targetUrl] ++
           (if cfg.screenshotOnError then [Event.screenshot directory.name] else []))
      | none =>
        let navEvents := [Event.goto targetUrl, Event.waitMs 2000]
        let revealEvents := revealEventsOf env directory
        if sc.hasForm then
          match sc.form with
          | some form =>
            let fillEvents := fillFormWithMapping env form.fields data
            let captchaEvents := if sc.requiresCaptcha then [Event.waitMs 30000] else []
            match form.submitButton with
            | some sb =>
              let sub := submitFormWithSelector env sb.selector
              if sub.1 then
                ({ success := true, message := "Form submitted successfully".data,
                   siteConfig := some form },
                 navEvents ++ revealEvents ++ fillEvents ++ captchaEvents ++ sub.2 ++
                   [Event.waitMs 3000])
              else
                ({ success := false, message := "Could not complete submission".data },
                 navEvents ++ revealEvents ++ fillEvents ++ captchaEvents ++ sub.2)
            | none =>
              ({ success := false, message := "Could not complete submission".data },
               navEvents ++ revealEvents ++ fillEvents ++ captchaEvents)
          | none =>
            ({ success := false, message := "Could not complete submission".data },
             navEvents ++ revealEvents)
        else
          ({ success := false, message := "Could not complete submission".data },
           navEvents ++ revealEvents)

end SmartSubmissionBot

/-- One form control as the inspector's page-context extraction sees it:
`type` is `field.type || tagName`, `label` is the text of the associated
`label[for=id]` element when one exists (resolved in the page context). -/
structure DomField where
  type : Str
  name : Str
  id : Str
  placeholder : Str
  required : Bool
  label : Str
  options : List DomOption := []
deriving DecidableEq

/-- The submit-button element of a form as resolved by the query chain
`button[type=submit]`, `input[type=submit]`, `button:not([type])`. -/
structure DomBtn where
  textContent : Str
  value : Str
  id : Str
  className : Str
deriving DecidableEq

/-- One `form` element of the inspected page. -/
structure DomForm where
  action : Str
  method : Str
  controls : List DomField
  submitBtnEl : Option DomBtn
deriving DecidableEq

/-- One anchor element of the inspected page; the collection selector
filters on the `href` attribute. -/
structure DomAnchor where
  text : Str
  href : Str
deriving DecidableEq

/-- The DOM state of one inspected page: its forms, its anchors, and
whether CAPTCHA markers (`.g-recaptcha, [data-sitekey]` / `.h-captcha`)
are present. -/
structure DomPage where
  forms : List DomForm
  anchors : List DomAnchor
  title : Str
  recaptchaMarker : Bool
  hcaptchaMarker : Bool
deriving DecidableEq

/-- The inspection either reaches the page or fails (navigation
timeout etc.) with an error message. -/
inductive InspectOutcome where
  | ok (page : DomPage)
  | failure (msg : Str)
deriving DecidableEq

/-- One extracted form of the inspection output: the non-hidden,
non-button controls plus the persisted submit-button descriptor. -/
structure FormInfo where
  index : Nat
  action : Str
  method : Str
  fields : List DomField
  submitButton : Option SubmitBtnCfg
deriving DecidableEq

/-- The result object of SiteInspector.inspectSite; on failure only
`name`, `url` and `error` are set (the rest default to their absent
values, which no consumer reads past the `error` check). -/
structure InspectionResult where
  name : Str
  url : Str
  error : Option Str := none
  forms : List FormInfo := []
  submissionLinks : List SubmissionLink := []
  title : Str := []
  hasRecaptcha : Bool := false
  hasHcaptcha : Bool := false
  fieldMapping : List (Str × FieldCfg) := []
deriving DecidableEq

/-- JS object key assignment on an insertion-ordered association list:
an existing key is overwritten in place, a new key is appended. -/
def objSet {α : Type} (m : List (Str × α)) (k : Str) (v : α) : List (Str × α) :=
  if (m.lookup k).isSome then
    m.map (fun kv => if kv.1 = k then (kv.1, v) else kv)
  else m ++ [(k, v)]

namespace SiteInspector

/-- SiteInspector.getFieldSelector (unnamed/part_003 lines 254-262):
id-based, then name-attribute, then generic type selector. -/
def getFieldSelector (f : DomField) : Str :=
  if f.id ≠ [] then '#' :: f.id
  else if f.name ≠ [] then "[name=\"".data ++ f.name ++ "\"]".data
  else "input[type=\"".data ++ f.type ++ "\"]".data

/-- The submit-button descriptor persisted for a form (unnamed/part_003
lines 105-114): `textContent.trim() || value || 'Submit'` and an id-based,
first-class-based, or generic selector. -/
def submitBtnCfgOf (b : DomBtn) : SubmitBtnCfg :=
  { text := some (jsOr (jsTrim b.textContent) (jsOr b.value ( "Submit".data))),
    selector :=
      if b.id ≠ [] then '#' :: b.id
      else if b.className ≠ [] then '.' :: jsFirstToken b.className
      else "button[type=\"submit\"]".data }

/-- The per-form part of the inspection's page evaluation
(unnamed/part_003 lines 51-117): keep the controls whose type is not
hidden/submit/button, and resolve the submit button. -/
def formInfoOf (idx : Nat) (f : DomForm) : FormInfo :=
  { index := idx, action := f.action, method := f.method,
    fields := f.controls.filter (fun c =>
      !(c.type == "hidden".data) && !(c.type == "submit".data) &&
        !(c.type == "button".data)),
    submitButton := f.submitBtnEl.map submitBtnCfgOf }

/-- The body of the field loop of SiteInspector.generateFieldMapping
(unnamed/part_003 lines 181-246): classify one field by key, label,
placeholder and type, and assign the mapping entry for its canonical
key (later fields for the same key overwrite earlier ones). -/
def mapOneField (mapping : List (Str × FieldCfg)) (f : DomField) :
    List (Str × FieldCfg) :=
  let lowerKey := jsLower (jsOr f.name f.id)
  let lowerLabel := jsLower f.label
  let lowerPlaceholder := jsLower f.placeholder
  if strIncludes lowerKey ( "name".data) || strIncludes lowerLabel ( "name".data)
      || strIncludes lowerPlaceholder ( "name".data) then
    if strIncludes lowerKey ( "first".data) || strIncludes lowerLabel ( "first".data)
        || strIncludes lowerPlaceholder ( "first".data) then
      objSet mapping ( "firstName".data)
        { selector := getFieldSelector f, type := "text".data }
    else if strIncludes lowerKey ( "last".data) || strIncludes lowerLabel ( "last".data)
        || strIncludes lowerPlaceholder ( "last".data) then
      objSet mapping ( "lastName".data)
        { selector := getFieldSelector f, type := "text".data }
    else
      objSet mapping ( "name".data)
        { selector := getFieldSelector f, type := "text".data }
  else if strIncludes lowerKey ( "email".data) || strIncludes lowerLabel ( "email".data)
      || f.type == "email".data then
    objSet mapping ( "email".data)
      { selector := getFieldSelector f, type := "email".data }
  else if strIncludes lowerKey ( "url".data) || strIncludes lowerKey ( "website".data)
      || strIncludes lowerKey ( "link".data) || strIncludes lowerLabel ( "url".data)
      || strIncludes lowerLabel ( "website".data) || f.type == "url".data then
    objSet mapping ( "url".data)
      { selector := getFieldSelector f, type := "url".data }
  else if strIncludes lowerKey ( "description".data)
      || strIncludes lowerLabel ( "description".data) || f.type == "textarea".data then
    objSet mapping ( "description".data)
      { selector := getFieldSelector f, type := "textarea".data }
  else if strIncludes lowerKey ( "category".data)
      || strIncludes lowerLabel ( "category".data) || f.type == "select".data then
    objSet mapping ( "category".data)
      { selector := getFieldSelector f, type := "select".data, options := f.options }
  else if strIncludes lowerKey ( "tag".data) || strIncludes lowerLabel ( "tag".data) then
    objSet mapping ( "tags".data)
      { selector := getFieldSelector f, type := "text".data }
  else if strIncludes lowerKey ( "title".data) || strIncludes lowerLabel ( "title".data) then
    objSet mapping ( "title".data)
      { selector := getFieldSelector f, type := "text".data }
  else if strIncludes lowerKey ( "company".data)
      || strIncludes lowerLabel ( "company".data) then
    objSet mapping ( "company".data)
      { selector := getFieldSelector f, type := "text".data }
  else mapping

/-- SiteInspector.generateFieldMapping (unnamed/part_003 lines 171-249):
an empty mapping when no form exists; otherwise the first form's fields
are folded through the classification loop. -/
def generateFieldMapping (forms : List FormInfo) : List (Str × FieldCfg) :=
  match forms with
  | [] => []
  | form :: _ => form.fields.foldl mapOneField []

/-- SiteInspector.inspectSite (unnamed/part_003 lines 34-166): a failed
navigation is caught and reported as an error result; a reached page
yields the extracted forms, the anchors whose href contains
submit/add/register, the CAPTCHA marker flags and the suggested field
mapping. -/
def inspectSite (outcome : InspectOutcome) (url nm : Str) : InspectionResult :=
  match outcome with
  | .failure msg => { name := nm, url := url, error := some msg }
  | .ok page =>
    let forms := page.forms.enum.map (fun p => formInfoOf p.1 p.2)
    { name := nm, url := url, error := none, forms := forms,
      submissionLinks := (page.anchors.filter (fun a =>
        strIncludes a.href ( "submit".data) || strIncludes a.href ( "add".data)
          || strIncludes a.href ( "register".data))).map (fun a =>
            { text := jsTrim a.text, href := a.href }),
      title := page.title,
      hasRecaptcha := page.recaptchaMarker, hasHcaptcha := page.hcaptchaMarker,
      fieldMapping := generateFieldMapping forms }

/-- The per-result body of SiteInspector.generateSiteConfigs
(unnamed/part_003 lines 287-323): an error result becomes a bare
manual-required config; otherwise `submissionMethod` starts as `form`,
the first form (when present) becomes the form block, and
`submissionMethod` becomes `link` only when submission links exist and
no form does. -/
def siteConfigOfResult (result : InspectionResult) : SiteConfig :=
  match result.error with
  | some e =>
    { url := result.url, error := some e, manualSubmissionRequired := true }
  | none =>
    let base : SiteConfig :=
      { url := result.url, hasForm := !result.forms.isEmpty,
        requiresCaptcha := result.hasRecaptcha || result.hasHcaptcha,
        submissionMethod := some ( "form".data) }
    let withForm :=
      match result.forms with
      | [] => base
      | f0 :: _ =>
        let fblock : FormCfg :=
          { index := some 0, action := some f0.action, method := some f0.method,
            fields := result.fieldMapping, submitButton := f0.submitButton }
        { base with form := some fblock }
    match result.submissionLinks with
    | [] => withForm
    | l0 :: _ =>
      if result.forms.isEmpty then
        { withForm with
            submissionLinks := result.submissionLinks,
            submissionMethod := some ( "link".data),
            recommendedLink := some l0 }
      else
        { withForm with submissionLinks := result.submissionLinks }

/-- SiteInspector.generateSiteConfigs (unnamed/part_003 lines 284-326):
fold the per-result config construction over all inspection results,
keyed by directory name. -/
def generateSiteConfigs (results : List InspectionResult) :
    List (Str × SiteConfig) :=
  results.foldl (fun configs r => objSet configs r.name (siteConfigOfResult r)) []

end SiteInspector

/-! ## Theorems -/

/-- The `allFields` accumulator invariant: an entry's site list is exactly
as long as its count, and the count is positive. -/
def entryOk (kv : Str × TrackedField) : Prop :=
  kv.2.sites.length = kv.2.count ∧ 0 < kv.2.count

theorem upsertField_ok {m : FieldMap} {key site : Str} {f : RawField}
    (h : ∀ kv ∈ m, entryOk kv) : ∀ kv ∈ upsertField m key site f, entryOk kv := by
  intro kv hkv
  unfold upsertField at hkv
  split at hkv
  · obtain ⟨kv0, h0, rfl⟩ := List.mem_map.mp hkv
    by_cases hk : kv0.1 = key
    · obtain ⟨hl, hp⟩ := h kv0 h0
      unfold entryOk
      rw [if_pos hk]
      constructor
      · simp [hl]
      · simp
    · rw [if_neg hk]
      exact h kv0 h0
  · rcases List.mem_append.mp hkv with h1 | h2
    · exact h _ h1
    · simp only [List.mem_singleton] at h2
      subst h2
      exact ⟨rfl, Nat.one_pos⟩

theorem trackSite_ok (fields : List RawField) :
    ∀ (m : FieldMap) (site : Str), (∀ kv ∈ m, entryOk kv) →
      ∀ kv ∈ trackSite m site fields, entryOk kv := by
  induction fields with
  | nil => intro m site h; exact h
  | cons f fs ih =>
    intro m site h
    have step : trackSite m site (f :: fs) =
        trackSite (upsertField m (FieldAnalyzer.getFieldKey f) site f) site fs := by
      simp [trackSite]
    rw [step]
    exact ih _ site (upsertField_ok h)

theorem runAnalysis_ok (sites : List (Str × List RawField)) :
    ∀ kv ∈ runAnalysis sites, entryOk kv := by
  have main : ∀ (l : List (Str × List RawField)) (m : FieldMap),
      (∀ kv ∈ m, entryOk kv) →
      ∀ kv ∈ l.foldl (fun acc s => trackSite acc s.1 s.2) m, entryOk kv := by
    intro l
    induction l with
    | nil => intro m h; exact h
    | cons s ss ih => intro m h; exact ih _ (trackSite_ok s.2 m s.1 h)
  intro kv hkv
  exact main sites [] (by simp) kv hkv

/-- Claim C1: for every sequence of analysed sites, every FieldStat record
produced by the aggregator has `sites.length` equal to `count` (the site
name is appended on every increment, duplicates per site not suppressed),
so the reported frequency is always 100. -/
theorem c1_field_stats_degenerate (sites : List (Str × List RawField))
    (stat : FieldStat) (h : stat ∈ getFieldRequirements (runAnalysis sites)) :
    stat.sites.length = stat.count ∧ stat.frequency = 100 := by
  unfold getFieldRequirements at h
  obtain ⟨kv, hkv, rfl⟩ := List.mem_map.mp h
  have hmem : kv ∈ runAnalysis sites := List.mem_mergeSort.mp hkv
  obtain ⟨hlen, hpos⟩ := runAnalysis_ok sites kv hmem
  refine ⟨hlen, ?_⟩
  show jsRoundPct kv.2.count kv.2.sites.length = 100
  rw [hlen]
  unfold jsRoundPct
  have h2 : 200 * kv.2.count + kv.2.count = kv.2.count + 2 * kv.2.count * 100 := by ring
  rw [h2, Nat.add_mul_div_left _ _ (by omega), Nat.div_eq_of_lt (by omega)]

/-- A descriptor with one email-typed, email-named field. -/
def emailField : RawField :=
  { type := "email".data, name := "email".data, id := [], placeholder := [],
    required := false, label := [], pattern := [], minLength := 0, maxLength := 0 }

/-- Three distinct sites, each contributing one email-classified field. -/
def threeSitesRun : List (Str × List RawField) :=
  [( "siteA".data, [emailField]), ( "siteB".data, [emailField]),
   ( "siteC".data, [emailField])]

/-- The accumulator entry those three sites produce for `email`. -/
def emailTracked : TrackedField :=
  { field := emailField, count := 3,
    sites := [ "siteA".data, "siteB".data, "siteC".data] }

/-- The reported stat: FieldStat with key email, count 3, frequency 100. -/
def emailStat : FieldStat :=
  { fieldKey := "email".data, field := emailField, count := 3,
    sites := [ "siteA".data, "siteB".data, "siteC".data], frequency := 100 }

theorem c1_witness :
    emailStat.sites.length = emailStat.count ∧ emailStat.frequency = 100 :=
  c1_field_stats_degenerate threeSitesRun emailStat (by
    unfold getFieldRequirements
    refine List.mem_map.mpr ⟨( "email".data, emailTracked),
      List.mem_mergeSort.mpr ?_, ?_⟩
    · decide
    · rfl)

/-- Claim C2: the classifier evaluates its rules in a fixed priority order
with the first match winning: a descriptor whose normalised name/id
contains both `first` and `name` classifies as firstName (never the
generic name key, whose rule excludes first/last), and a descriptor whose
normalised name/id contains `name` but neither `first` nor `last`
classifies as name; both the FieldAnalyzer and the CLI copy agree. -/
theorem c2_classifier_priority (f : RawField) :
    (strIncludes (normalizeFieldName f) ( "first".data) = true →
     strIncludes (normalizeFieldName f) ( "name".data) = true →
       FieldAnalyzer.getFieldKey f = "firstName".data ∧
       FieldAnalyzer.getFieldKey f ≠ "name".data ∧
       DirectoriesCLI.mapFieldToKey f = some ( "firstName".data)) ∧
    (strIncludes (normalizeFieldName f) ( "name".data) = true →
     strIncludes (normalizeFieldName f) ( "first".data) = false →
     strIncludes (normalizeFieldName f) ( "last".data) = false →
       FieldAnalyzer.getFieldKey f = "name".data ∧
       DirectoriesCLI.mapFieldToKey f = some ( "name".data)) := by
  constructor
  · intro h1 h2
    have e1 : FieldAnalyzer.getFieldKey f = "firstName".data := by
      simp [FieldAnalyzer.getFieldKey, h1, h2]
    have e2 : DirectoriesCLI.mapFieldToKey f = some ( "firstName".data) := by
      simp [DirectoriesCLI.mapFieldToKey, h1, h2]
    exact ⟨e1, by rw [e1]; decide, e2⟩
  · intro h1 h2 h3
    constructor
    · simp [FieldAnalyzer.getFieldKey, h1, h2, h3]
    · simp [DirectoriesCLI.mapFieldToKey, h1, h2, h3]

/-- A descriptor named `first_name`. -/
def firstNameField : RawField :=
  { type := "text".data, name := "first_name".data, id := [], placeholder := [],
    required := false, label := [], pattern := [], minLength := 0, maxLength := 0 }

/-- A descriptor named `name`. -/
def plainNameField : RawField :=
  { type := "text".data, name := "name".data, id := [], placeholder := [],
    required := false, label := [], pattern := [], minLength := 0, maxLength := 0 }

theorem c2_witness :
    (FieldAnalyzer.getFieldKey firstNameField = "firstName".data ∧
     FieldAnalyzer.getFieldKey firstNameField ≠ "name".data ∧
     DirectoriesCLI.mapFieldToKey firstNameField = some ( "firstName".data)) ∧
    (FieldAnalyzer.getFieldKey plainNameField = "name".data ∧
     DirectoriesCLI.mapFieldToKey plainNameField = some ( "name".data)) :=
  ⟨(c2_classifier_priority firstNameField).1 (by decide) (by decide),
   (c2_classifier_priority plainNameField).2 (by decide) (by decide) (by decide)⟩

/-- Claim C10: FieldAnalyzer.clickButtonFromHtml and
SmartSubmissionBot.clickButtonFromHtml are extensionally equivalent: for
every snippet and page state they attempt the same four fallback tiers in
the same order and produce the same click action, return value, or raised
error. -/
theorem c10_click_helpers_equal :
    ∀ (page : PageDom) (html : Str),
      FieldAnalyzer.clickButtonFromHtml page html =
        SmartSubmissionBot.clickButtonFromHtml page html := by
  intro page html
  rfl

/-- Is an event part of the form-filling step? -/
def isFillEvent : Event → Bool
  | .fieldNoValue _ => true
  | .fieldQuery _ _ => true
  | .fieldNotFound _ _ => true
  | .fieldFillError _ => true
  | .fieldFilled _ _ => true
  | _ => false

/-- Is an event one of the reveal-click step? -/
def isRevealEvent : Event → Bool
  | .revealClicked _ => true
  | .revealFailed _ => true
  | _ => false

/-- A browser environment with an empty page and no failures. -/
def plainEnv : BrowserEnv := { dom := { clickables := [], buttonTexts := [] } }

/-- The default bot configuration. -/
def defaultBotCfg : BotConfig := {}

/-- A directory with no stored SiteConfig. -/
def noCfgDirectory : Directory :=
  { name := "Example Dir".data, url := "https://example.test".data,
    submit_url := [], submit_button := [] }

/-- Claim C3 counterexample: when no SiteConfig entry exists for the
directory name, submitToDirectory returns the plain visit result, whose
`requiresManual` is not set — refuting the claim that the no-entry case
short-circuits to a ManualRequired result. -/
theorem c3_counterexample :
    (SmartSubmissionBot.submitToDirectory plainEnv defaultBotCfg []
        noCfgDirectory []).1.requiresManual = false ∧
    (SmartSubmissionBot.submitToDirectory plainEnv defaultBotCfg []
        noCfgDirectory []).1.success = true := ⟨rfl, rfl⟩

/-- Claim C3 (amended): a directory without a SiteConfig entry falls back
to the plain page visit — no field is filled, nothing is raised, but the
result does not carry `requiresManual`; a config with
`manualSubmissionRequired` or a truthy `error` short-circuits before any
navigation to a failed result with `requiresManual` set, again with no
fill attempt and no raise (totality of the embedding). -/
theorem c3_manual_short_circuit (env : BrowserEnv) (cfg : BotConfig)
    (siteConfigs : List (Str × SiteConfig)) (d : Directory)
    (data : List (Str × Str)) :
    (siteConfigs.lookup d.name = none →
       SmartSubmissionBot.submitToDirectory env cfg siteConfigs d data =
         visitDirectory env cfg d.url d.name ∧
       (SmartSubmissionBot.submitToDirectory env cfg siteConfigs d data).1.requiresManual
         = false ∧
       (SmartSubmissionBot.submitToDirectory env cfg siteConfigs d data).2.all
         (fun e => !isFillEvent e) = true) ∧
    (∀ sc, siteConfigs.lookup d.name = some sc →
       (sc.manualSubmissionRequired = true ∨ optTruthy sc.error = true) →
       SmartSubmissionBot.submitToDirectory env cfg siteConfigs d data =
         ({ success := false, message := "Manual submission required".data,
            requiresManual := true }, [])) := by
  constructor
  · intro hnone
    have he : SmartSubmissionBot.submitToDirectory env cfg siteConfigs d data =
        visitDirectory env cfg d.url d.name := by
      unfold SmartSubmissionBot.submitToDirectory
      rw [hnone]
    refine ⟨he, ?_, ?_⟩
    · rw [he]
      unfold visitDirectory
      cases env.gotoFailures.lookup d.url with
      | none => rfl
      | some e => by_cases hs : cfg.screenshotOnError <;> simp [hs]
    · rw [he]
      unfold visitDirectory
      cases env.gotoFailures.lookup d.url with
      | none => rfl
      | some e => by_cases hs : cfg.screenshotOnError <;> simp [hs, isFillEvent]
  · intro sc hsc hman
    have hcond : (sc.manualSubmissionRequired || optTruthy sc.error) = true := by
      rcases hman with h | h <;> simp [h]
    unfold SmartSubmissionBot.submitToDirectory
    rw [hsc]
    simp [hcond]

/-- A config flagged for manual submission. -/
def manualCfg : SiteConfig :=
  { url := "https://m.test".data, manualSubmissionRequired := true }

/-- A directory whose stored config is `manualCfg`. -/
def manualDir : Directory :=
  { name := "Manual Dir".data, url := "https://m.test".data,
    submit_url := [], submit_button := [] }

theorem c3_witness :
    SmartSubmissionBot.submitToDirectory plainEnv defaultBotCfg
        [( "Manual Dir".data, manualCfg)] manualDir [] =
      ({ success := false, message := "Manual submission required".data,
         requiresManual := true }, []) :=
  (c3_manual_short_circuit plainEnv defaultBotCfg
      [( "Manual Dir".data, manualCfg)] manualDir []).2
    manualCfg (by decide) (Or.inl (by decide))

/-- A field mapping entry whose value in the submission data is the empty
string. -/
def ce7field : FieldCfg := { selector := "#name".data, type := "text".data }

/-- A one-entry field mapping. -/
def ce7fields : List (Str × FieldCfg) := [( "name".data, ce7field)]

/-- Submission data carrying the key `name` with an empty value. -/
def ce7data : List (Str × Str) := [( "name".data, [])]

/-- Claim C7 counterexample: the key `name` is present in both the field
mapping and the submission data, yet the fill loop never locates its
selector (no fieldQuery action) — the falsy-value guard skips it first,
refuting the universally quantified "every key present in both is
attempted". -/
theorem c7_counterexample :
    ce7data.lookup ( "name".data) = some [] ∧
    SmartSubmissionBot.fillFormWithMapping plainEnv ce7fields ce7data =
      [Event.fieldNoValue ( "name".data)] := ⟨rfl, rfl⟩

/-- Claim C7 (amended): every canonical key present in both the mapping
and the data *with a non-empty value* is attempted (its selector is
located); a key whose mapped selector resolves no element contributes
exactly a query-then-skip and nothing else; and the loop decomposes
per-field, so a skipped field never prevents the remaining fields from
being processed.  The routine is total with no error outcome, modelling
that every failure mode is caught inside the loop. -/
theorem c7_fill_skips_and_continues (env : BrowserEnv) (data : List (Str × Str))
    (fields : List (Str × FieldCfg)) :
    (∀ l1 kv l2, fields = l1 ++ kv :: l2 →
       SmartSubmissionBot.fillFormWithMapping env fields data =
         SmartSubmissionBot.fillFormWithMapping env l1 data ++
         (SmartSubmissionBot.fillOneField env data kv ++
          SmartSubmissionBot.fillFormWithMapping env l2 data)) ∧
    (∀ kv ∈ fields, ∀ v, data.lookup kv.1 = some v → v ≠ [] →
       Event.fieldQuery kv.1 kv.2.selector ∈
         SmartSubmissionBot.fillFormWithMapping env fields data) ∧
    (∀ kv : Str × FieldCfg, ∀ v, data.lookup kv.1 = some v → v ≠ [] →
       env.present.contains kv.2.selector = false →
       SmartSubmissionBot.fillOneField env data kv =
         [Event.fieldQuery kv.1 kv.2.selector,
          Event.fieldNotFound kv.1 kv.2.selector]) := by
  refine ⟨?_, ?_, ?_⟩
  · intro l1 kv l2 hsplit
    subst hsplit
    simp [SmartSubmissionBot.fillFormWithMapping]
  · intro kv hkv v hv hvne
    refine List.mem_flatMap.mpr ⟨kv, hkv, ?_⟩
    unfold SmartSubmissionBot.fillOneField
    rw [hv]
    dsimp only
    rw [if_neg hvne]
    by_cases hp : env.present.contains kv.2.selector = true
    · rw [if_pos hp]
      by_cases hi : env.interactFailures.contains kv.2.selector = true
      · rw [if_pos hi]; exact List.mem_cons_self _ _
      · rw [if_neg hi]; exact List.mem_cons_self _ _
    · rw [if_neg hp]; exact List.mem_cons_self _ _
  · intro kv v hv hvne hp
    unfold SmartSubmissionBot.fillOneField
    rw [hv]
    dsimp only
    rw [if_neg hvne, if_neg (by rw [hp]; exact Bool.false_ne_true)]

/-- The fixed email mapping entry of the C7 witness. -/
def w7emailCfg : FieldCfg := { selector := "#email".data, type := "text".data }

/-- The fixed name mapping entry of the C7 witness. -/
def w7nameCfg : FieldCfg := { selector := "#name".data, type := "text".data }

/-- An environment that resolves only the email selector. -/
def w7env : BrowserEnv :=
  { dom := { clickables := [], buttonTexts := [] }, present := [ "#email".data] }

/-- A two-entry mapping: the email field exists, the name field does not. -/
def w7fields : List (Str × FieldCfg) :=
  [( "email".data, w7emailCfg), ( "name".data, w7nameCfg)]

/-- Submission data for both keys. -/
def w7data : List (Str × Str) :=
  [( "email".data, "a@b.test".data), ( "name".data, "Example".data)]

theorem fillOneField_all_fill (env : BrowserEnv) (data : List (Str × Str))
    (kv : Str × FieldCfg) :
    (SmartSubmissionBot.fillOneField env data kv).all isFillEvent = true := by
  unfold SmartSubmissionBot.fillOneField
  cases data.lookup kv.1 with
  | none => rfl
  | some v =>
    dsimp only
    by_cases hv : v = []
    · rw [if_pos hv]; rfl
    · rw [if_neg hv]
      by_cases hp : env.present.contains kv.2.selector = true
      · rw [if_pos hp]
        by_cases hi : env.interactFailures.contains kv.2.selector = true
        · rw [if_pos hi]; rfl
        · rw [if_neg hi]; rfl
      · rw [if_neg hp]; rfl

theorem fillForm_all_fill (env : BrowserEnv) (data : List (Str × Str))
    (fields : List (Str × FieldCfg)) :
    (SmartSubmissionBot.fillFormWithMapping env fields data).all isFillEvent = true := by
  induction fields with
  | nil => rfl
  | cons kv rest ih =>
    unfold SmartSubmissionBot.fillFormWithMapping at ih ⊢
    rw [List.flatMap_cons, List.all_append, ih, fillOneField_all_fill]
    rfl

theorem isFill_not_reveal (e : Event) (h : isFillEvent e = true) :
    isRevealEvent e = false := by
  cases e <;> simp_all [isFillEvent, isRevealEvent]

theorem isFill_not_wait (e : Event) (n : Nat) (h : isFillEvent e = true) :
    e ≠ Event.waitMs n := by
  cases e <;> simp_all [isFillEvent]

theorem fillForm_no_reveal (env : BrowserEnv) (data : List (Str × Str))
    (fields : List (Str × FieldCfg)) :
    (SmartSubmissionBot.fillFormWithMapping env fields data).any isRevealEvent = false := by
  rw [List.any_eq_false]
  intro e he
  have hf := List.all_eq_true.mp (fillForm_all_fill env data fields) e he
  simp [isFill_not_reveal e hf]

theorem reveal_any_iff (env : BrowserEnv) (d : Directory) :
    ((SmartSubmissionBot.revealEventsOf env d).any isRevealEvent = true ↔
      d.submit_button ≠ [] ∧ jsTrim d.submit_button ≠ [] ∧ d.submit_url = []) := by
  unfold SmartSubmissionBot.revealEventsOf
  split
  case isTrue h =>
    cases SmartSubmissionBot.clickButtonFromHtml env.dom d.submit_button <;>
      simp [isRevealEvent, h]
  case isFalse h => simp [h]

theorem reveal_no_wait30 (env : BrowserEnv) (d : Directory) :
    ∀ e ∈ SmartSubmissionBot.revealEventsOf env d, e ≠ Event.waitMs 30000 := by
  intro e he
  unfold SmartSubmissionBot.revealEventsOf at he
  split at he
  · cases hcl : SmartSubmissionBot.clickButtonFromHtml env.dom d.submit_button with
    | ok a => rw [hcl] at he; rcases List.mem_pair.mp he with rfl | rfl <;> simp
    | error er => rw [hcl] at he; rw [List.mem_singleton] at he; subst he; simp
  · simp at he

theorem subEvents_cases (env : BrowserEnv) (sel : Str) :
    ∀ e ∈ (SmartSubmissionBot.submitFormWithSelector env sel).2,
      e = Event.submitClicked sel ∨ e = Event.submitNotFound sel := by
  intro e he
  unfold SmartSubmissionBot.submitFormWithSelector at he
  split at he
  · split at he <;> (rw [List.mem_singleton] at he; subst he; exact Or.inl rfl)
  · rw [List.mem_singleton] at he; subst he; exact Or.inr rfl

theorem subEvents_no_reveal (env : BrowserEnv) (sel : Str) :
    ((SmartSubmissionBot.submitFormWithSelector env sel).2).any isRevealEvent = false := by
  rw [List.any_eq_false]
  intro e he
  rcases subEvents_cases env sel e he with rfl | rfl <;> simp [isRevealEvent]

theorem subEvents_no_wait (env : BrowserEnv) (sel : Str) (n : Nat) :
    ∀ e ∈ (SmartSubmissionBot.submitFormWithSelector env sel).2,
      e ≠ Event.waitMs n := by
  intro e he
  rcases subEvents_cases env sel e he with rfl | rfl <;> simp

/-- Trace shape of submitToDirectory when a usable config with a form
block is stored and navigation succeeds: navigation events, then the
reveal step, then the fill step, then the CAPTCHA pause (iff
`requiresCaptcha`), then the submit-button step. -/
theorem submit_form_trace (env : BrowserEnv) (cfg : BotConfig)
    (siteConfigs : List (Str × SiteConfig)) (d : Directory)
    (data : List (Str × Str)) (sc : SiteConfig) (form : FormCfg)
    (hsc : siteConfigs.lookup d.name = some sc)
    (hman : sc.manualSubmissionRequired = false)
    (herr : optTruthy sc.error = false)
    (hg : env.gotoFailures.lookup (targetUrlOf d) = none)
    (hf : sc.hasForm = true) (hform : sc.form = some form) :
    (SmartSubmissionBot.submitToDirectory env cfg siteConfigs d data).2 =
      [Event.goto (targetUrlOf d), Event.waitMs 2000] ++
      SmartSubmissionBot.revealEventsOf env d ++
      SmartSubmissionBot.fillFormWithMapping env form.fields data ++
      (if sc.requiresCaptcha then [Event.waitMs 30000] else []) ++
      (match form.submitButton with
       | some sb =>
         (SmartSubmissionBot.submitFormWithSelector env sb.selector).2 ++
           (if (SmartSubmissionBot.submitFormWithSelector env sb.selector).1 then
             [Event.waitMs 3000] else [])
       | none => []) := by
  have hcond : (sc.manualSubmissionRequired || optTruthy sc.error) = false := by
    simp [hman, herr]
  unfold SmartSubmissionBot.submitToDirectory
  rw [hsc]
  dsimp only
  rw [hcond]
  rw [if_neg Bool.false_ne_true]
  rw [hg]
  dsimp only
  rw [hf]
  rw [if_pos rfl]
  rw [hform]
  dsimp only
  cases form.submitButton with
  | none => simp
  | some sb =>
    dsimp only
    by_cases hs : (SmartSubmissionBot.submitFormWithSelector env sb.selector).1 = true
    · rw [if_pos hs, if_pos hs]; simp
    · rw [if_neg hs, if_neg hs]; simp

/-- Trace shape of submitToDirectory when the stored config is usable and
navigation succeeds but no form block applies: only navigation and the
reveal step happen. -/
theorem submit_noform_trace (env : BrowserEnv) (cfg : BotConfig)
    (siteConfigs : List (Str × SiteConfig)) (d : Directory)
    (data : List (Str × Str)) (sc : SiteConfig)
    (hsc : siteConfigs.lookup d.name = some sc)
    (hman : sc.manualSubmissionRequired = false)
    (herr : optTruthy sc.error = false)
    (hg : env.gotoFailures.lookup (targetUrlOf d) = none)
    (hnof : sc.hasForm = false ∨ sc.form = none) :
    (SmartSubmissionBot.submitToDirectory env cfg siteConfigs d data).2 =
      [Event.goto (targetUrlOf d), Event.waitMs 2000] ++
      SmartSubmissionBot.revealEventsOf env d := by
  have hcond : (sc.manualSubmissionRequired || optTruthy sc.error) = false := by
    simp [hman, herr]
  unfold SmartSubmissionBot.submitToDirectory
  rw [hsc]
  dsimp only
  rw [hcond]
  rw [if_neg Bool.false_ne_true]
  rw [hg]
  dsimp only
  by_cases hf : sc.hasForm = true
  · rw [if_pos hf]
    have hfn : sc.form = none := by
      rcases hnof with h | h
      · rw [hf] at h; cases h
      · exact h
    rw [hfn]
  · rw [if_neg hf]

/-- Trace of submitToDirectory when the stored config is usable but
navigation throws: the goto and the optional error screenshot. -/
theorem submit_gotofail_trace (env : BrowserEnv) (cfg : BotConfig)
    (siteConfigs : List (Str × SiteConfig)) (d : Directory)
    (data : List (Str × Str)) (sc : SiteConfig) (msg : Str)
    (hsc : siteConfigs.lookup d.name = some sc)
    (hman : sc.manualSubmissionRequired = false)
    (herr : optTruthy sc.error = false)
    (hg : env.gotoFailures.lookup (targetUrlOf d) = some msg) :
    (SmartSubmissionBot.submitToDirectory env cfg siteConfigs d data).2 =
      [Event.goto (targetUrlOf d)] ++
        (if cfg.screenshotOnError then [Event.screenshot d.name] else []) := by
  have hcond : (sc.manualSubmissionRequired || optTruthy sc.error) = false := by
    simp [hman, herr]
  unfold SmartSubmissionBot.submitToDirectory
  rw [hsc]
  dsimp only
  rw [hcond]
  rw [if_neg Bool.false_ne_true]
  rw [hg]

theorem c7_witness :
    Event.fieldQuery ( "email".data) ( "#email".data) ∈
      SmartSubmissionBot.fillFormWithMapping w7env w7fields w7data ∧
    SmartSubmissionBot.fillOneField w7env w7data ( "name".data, w7nameCfg) =
      [Event.fieldQuery ( "name".data) ( "#name".data),
       Event.fieldNotFound ( "name".data) ( "#name".data)] :=
  ⟨(c7_fill_skips_and_continues w7env w7data w7fields).2.1
      ( "email".data, w7emailCfg) (by decide) ( "a@b.test".data)
      (by decide) (by decide),
   (c7_fill_skips_and_continues w7env w7data w7fields).2.2
      ( "name".data, w7nameCfg) ( "Example".data)
      (by decide) (by decide) (by decide)⟩

theorem nav_any_reveal (u : Str) :
    ([Event.goto u, Event.waitMs 2000].any isRevealEvent) = false := rfl

/-- A config with no special flags, stored for the whitespace-submit-url
directory. -/
def wsCfg : SiteConfig := { url := "https://generic.test".data }

/-- A directory whose `submit_url` cell holds a single blank: truthy in
JS, but blank after trimming. -/
def wsDir : Directory :=
  { name := "WS Dir".data, url := "https://generic.test".data,
    submit_url := " ".data, submit_button := "#reveal".data }

/-- Claim C8 counterexample: with a whitespace-only `submit_url`,
navigation uses the generic URL (so no explicit submit URL was used) and a
non-blank reveal descriptor is present, yet the trace contains no reveal
event — the reveal gate tests the untrimmed truthiness of `submit_url`,
not whether it was used for navigation. -/
theorem c8_counterexample :
    (SmartSubmissionBot.submitToDirectory plainEnv defaultBotCfg
        [( "WS Dir".data, wsCfg)] wsDir []).2 =
      [Event.goto wsDir.url, Event.waitMs 2000] ∧
    wsDir.submit_button ≠ [] ∧ jsTrim wsDir.submit_button ≠ [] ∧
    targetUrlOf wsDir = wsDir.url ∧ wsDir.url ≠ wsDir.submit_url :=
  ⟨rfl, by decide, by decide, by decide, by decide⟩

/-- Claim C8 (amended): navigation prefers a non-blank `submit_url` over
the generic URL; and when a usable config is stored, the reveal-control
step is attempted if and only if navigation succeeded, the reveal
descriptor is non-blank, and the `submit_url` field itself is empty
(falsy untrimmed) — which coincides with "no explicit submit URL was
used" except when `submit_url` is whitespace-only, where the reveal step
is suppressed although the generic URL was used. -/
theorem c8_nav_and_reveal_gate (env : BrowserEnv) (cfg : BotConfig)
    (siteConfigs : List (Str × SiteConfig)) (d : Directory)
    (data : List (Str × Str)) (sc : SiteConfig)
    (hsc : siteConfigs.lookup d.name = some sc)
    (hman : sc.manualSubmissionRequired = false)
    (herr : optTruthy sc.error = false) :
    ((SmartSubmissionBot.submitToDirectory env cfg siteConfigs d data).2.head? =
       some (Event.goto (targetUrlOf d))) ∧
    (env.gotoFailures.lookup (targetUrlOf d) = none →
       (((SmartSubmissionBot.submitToDirectory env cfg siteConfigs d data).2.any
           isRevealEvent = true) ↔
         (d.submit_button ≠ [] ∧ jsTrim d.submit_button ≠ [] ∧
           d.submit_url = []))) ∧
    (∀ msg, env.gotoFailures.lookup (targetUrlOf d) = some msg →
       (SmartSubmissionBot.submitToDirectory env cfg siteConfigs d data).2.any
         isRevealEvent = false) := by
  cases hg : env.gotoFailures.lookup (targetUrlOf d) with
  | some msg =>
    have ht := submit_gotofail_trace env cfg siteConfigs d data sc msg hsc hman herr hg
    refine ⟨?_, ?_, ?_⟩
    · rw [ht]; rfl
    · intro hnone; exact absurd hnone (by simp)
    · intro m hm
      rw [ht]
      by_cases hs : cfg.screenshotOnError = true
      · rw [if_pos hs]; rfl
      · rw [if_neg hs]; rfl
  | none =>
    have noform : (sc.hasForm = false ∨ sc.form = none) →
        ((SmartSubmissionBot.submitToDirectory env cfg siteConfigs d data).2.head? =
           some (Event.goto (targetUrlOf d))) ∧
        (((SmartSubmissionBot.submitToDirectory env cfg siteConfigs d data).2.any
            isRevealEvent = true) ↔
          (d.submit_button ≠ [] ∧ jsTrim d.submit_button ≠ [] ∧
            d.submit_url = [])) := by
      intro hnof
      have ht := submit_noform_trace env cfg siteConfigs d data sc hsc hman herr hg hnof
      refine ⟨by rw [ht]; rfl, ?_⟩
      rw [ht, List.any_append, nav_any_reveal, Bool.false_or]
      exact reveal_any_iff env d
    rcases hform : sc.form with _ | form
    · obtain ⟨h1, h2⟩ := noform (Or.inr hform)
      exact ⟨h1, fun _ => h2, fun m hm => absurd hm (by simp)⟩
    · by_cases hf : sc.hasForm = true
      · have ht := submit_form_trace env cfg siteConfigs d data sc form hsc hman herr hg hf hform
        refine ⟨by rw [ht]; rfl, ?_, fun m hm => absurd hm (by simp)⟩
        intro _
        rw [ht]
        simp only [List.any_append]
        rw [nav_any_reveal, fillForm_no_reveal]
        have hcap : ((if sc.requiresCaptcha then [Event.waitMs 30000] else []).any
            isRevealEvent) = false := by
          split <;> rfl
        rw [hcap]
        have hsub : ((match form.submitButton with
            | some sb =>
              (SmartSubmissionBot.submitFormWithSelector env sb.selector).2 ++
                (if (SmartSubmissionBot.submitFormWithSelector env sb.selector).1 then
                  [Event.waitMs 3000] else [])
            | none => ([] : List Event)).any isRevealEvent) = false := by
          cases form.submitButton with
          | none => rfl
          | some sb =>
            rw [List.any_append, subEvents_no_reveal]
            have hw : ((if (SmartSubmissionBot.submitFormWithSelector env sb.selector).1
                then [Event.waitMs 3000] else []).any isRevealEvent) = false := by
              split <;> rfl
            rw [hw]
            rfl
        rw [hsub]
        simp only [Bool.or_false, Bool.false_or]
        exact reveal_any_iff env d
      · have hf' : sc.hasForm = false := by
          cases hb : sc.hasForm with
          | false => rfl
          | true => exact absurd hb hf
        obtain ⟨h1, h2⟩ := noform (Or.inl hf')
        exact ⟨h1, fun _ => h2, fun m hm => absurd hm (by simp)⟩

/-- The C8 witness directory: empty `submit_url`, non-blank reveal
descriptor. -/
def w8dir : Directory :=
  { name := "W8 Dir".data, url := "https://w8.test".data,
    submit_url := [], submit_button := "#open".data }

/-- The C8 witness config. -/
def w8cfg : SiteConfig := { url := "https://w8.test".data }

/-- The C8 witness environment: the reveal selector is clickable. -/
def w8env : BrowserEnv := { dom := { clickables := [ "#open".data], buttonTexts := [] } }

theorem c8_witness :
    ((SmartSubmissionBot.submitToDirectory w8env defaultBotCfg
        [( "W8 Dir".data, w8cfg)] w8dir []).2.head? =
      some (Event.goto (targetUrlOf w8dir))) ∧
    ((SmartSubmissionBot.submitToDirectory w8env defaultBotCfg
        [( "W8 Dir".data, w8cfg)] w8dir []).2.any isRevealEvent = true) :=
  have h := c8_nav_and_reveal_gate w8env defaultBotCfg
    [( "W8 Dir".data, w8cfg)] w8dir [] w8cfg (by decide) (by decide) (by decide)
  ⟨h.1, (h.2.1 (by decide)).mpr (by decide)⟩

theorem reveal_events_shape (env : BrowserEnv) (d : Directory) :
    ∀ e ∈ SmartSubmissionBot.revealEventsOf env d,
      isRevealEvent e = true ∨ e = Event.waitMs 2000 := by
  intro e he
  unfold SmartSubmissionBot.revealEventsOf at he
  split at he
  · cases hcl : SmartSubmissionBot.clickButtonFromHtml env.dom d.submit_button with
    | ok a =>
      rw [hcl] at he
      rcases List.mem_pair.mp he with rfl | rfl
      · exact Or.inl rfl
      · exact Or.inr rfl
    | error er =>
      rw [hcl] at he
      rw [List.mem_singleton] at he
      subst he
      exact Or.inl rfl
  · simp at he

theorem no_submit_in_prefix (env : BrowserEnv) (d : Directory)
    (data : List (Str × Str)) (fields : List (Str × FieldCfg)) (sel u : Str) :
    Event.submitClicked sel ∉
      ([Event.goto u, Event.waitMs 2000] ++ SmartSubmissionBot.revealEventsOf env d ++
        SmartSubmissionBot.fillFormWithMapping env fields data) := by
  intro hmem
  rcases List.mem_append.mp hmem with h | h
  · rcases List.mem_append.mp h with h2 | h2
    · simp at h2
    · have hs := reveal_events_shape env d _ h2
      simp [isRevealEvent] at hs
  · have hf := List.all_eq_true.mp (fillForm_all_fill env data fields) _ h
    simp [isFillEvent] at hf

theorem no_wait30_nav_reveal (env : BrowserEnv) (d : Directory) (u : Str) :
    Event.waitMs 30000 ∉
      ([Event.goto u, Event.waitMs 2000] ++ SmartSubmissionBot.revealEventsOf env d) := by
  intro hmem
  rcases List.mem_append.mp hmem with h | h
  · simp at h
  · exact reveal_no_wait30 env d _ h rfl

theorem sub_tail_cases (env : BrowserEnv) (sel : Str) :
    ∀ e ∈ (SmartSubmissionBot.submitFormWithSelector env sel).2 ++
        (if (SmartSubmissionBot.submitFormWithSelector env sel).1 then
          [Event.waitMs 3000] else []),
      e = Event.submitClicked sel ∨ e = Event.submitNotFound sel ∨
        e = Event.waitMs 3000 := by
  intro e he
  rcases List.mem_append.mp he with h | h
  · rcases subEvents_cases env sel e h with rfl | rfl
    · exact Or.inl rfl
    · exact Or.inr (Or.inl rfl)
  · split at h
    · rw [List.mem_singleton] at h
      subst h
      exact Or.inr (Or.inr rfl)
    · simp at h

/-- Claim C9: when the stored SiteConfig requires a CAPTCHA and a
submit-button activation is attempted, the fixed, non-cancellable 30000 ms
grace wait appears in the trace strictly after every field-fill action and
strictly before the activation (so the elapsed time between filling and
activation is at least the grace period); when `requiresCaptcha` is false,
no 30000 ms wait occurs anywhere in the trace. -/
theorem c9_captcha_grace_wait (env : BrowserEnv) (cfg : BotConfig)
    (siteConfigs : List (Str × SiteConfig)) (d : Directory)
    (data : List (Str × Str)) (sc : SiteConfig)
    (hsc : siteConfigs.lookup d.name = some sc) :
    (sc.requiresCaptcha = true →
      ∀ sel, Event.submitClicked sel ∈
          (SmartSubmissionBot.submitToDirectory env cfg siteConfigs d data).2 →
        ∃ pre post,
          (SmartSubmissionBot.submitToDirectory env cfg siteConfigs d data).2 =
            pre ++ Event.waitMs 30000 :: post ∧
          Event.submitClicked sel ∈ post ∧
          (∀ e ∈ post, isFillEvent e = false)) ∧
    (sc.requiresCaptcha = false →
      Event.waitMs 30000 ∉
        (SmartSubmissionBot.submitToDirectory env cfg siteConfigs d data).2) := by
  by_cases hman : (sc.manualSubmissionRequired || optTruthy sc.error) = true
  · have ht : (SmartSubmissionBot.submitToDirectory env cfg siteConfigs d data).2 = [] := by
      unfold SmartSubmissionBot.submitToDirectory
      rw [hsc]
      dsimp only
      rw [hman, if_pos rfl]
    constructor
    · intro _ sel hmem
      rw [ht] at hmem
      simp at hmem
    · intro _
      rw [ht]
      simp
  · have hman' : sc.manualSubmissionRequired = false := by
      revert hman
      cases sc.manualSubmissionRequired <;> simp
    have herr' : optTruthy sc.error = false := by
      revert hman
      cases h : optTruthy sc.error <;> simp
    cases hg : env.gotoFailures.lookup (targetUrlOf d) with
    | some msg =>
      have ht := submit_gotofail_trace env cfg siteConfigs d data sc msg hsc hman' herr' hg
      constructor
      · intro _ sel hmem
        rw [ht] at hmem
        exfalso
        rcases List.mem_append.mp hmem with h | h
        · simp at h
        · split at h <;> simp at h
      · intro _
        rw [ht]
        intro hmem
        rcases List.mem_append.mp hmem with h | h
        · simp at h
        · split at h <;> simp at h
    | none =>
      have noformCase : (sc.hasForm = false ∨ sc.form = none) →
          (sc.requiresCaptcha = true →
            ∀ sel, Event.submitClicked sel ∈
                (SmartSubmissionBot.submitToDirectory env cfg siteConfigs d data).2 →
              ∃ pre post,
                (SmartSubmissionBot.submitToDirectory env cfg siteConfigs d data).2 =
                  pre ++ Event.waitMs 30000 :: post ∧
                Event.submitClicked sel ∈ post ∧
                (∀ e ∈ post, isFillEvent e = false)) ∧
          (sc.requiresCaptcha = false →
            Event.waitMs 30000 ∉
              (SmartSubmissionBot.submitToDirectory env cfg siteConfigs d data).2) := by
        intro hnof
        have ht := submit_noform_trace env cfg siteConfigs d data sc hsc hman' herr' hg hnof
        constructor
        · intro _ sel hmem
          rw [ht] at hmem
          exfalso
          rcases List.mem_append.mp hmem with h | h
          · simp at h
          · have hs := reveal_events_shape env d _ h
            simp [isRevealEvent] at hs
        · intro _
          rw [ht]
          exact no_wait30_nav_reveal env d (targetUrlOf d)
      rcases hform : sc.form with _ | form
      · exact noformCase (Or.inr hform)
      · by_cases hf : sc.hasForm = true
        · have ht := submit_form_trace env cfg siteConfigs d data sc form hsc hman' herr' hg hf hform
          constructor
          · intro hcap sel hmem
            have hcapL : (if sc.requiresCaptcha then [Event.waitMs 30000] else []) =
                [Event.waitMs 30000] := by simp [hcap]
            rw [hcapL] at ht
            cases hsb : form.submitButton with
            | none =>
              rw [hsb] at ht
              rw [ht] at hmem
              exfalso
              rcases List.mem_append.mp hmem with h | h
              · rcases List.mem_append.mp h with h2 | h2
                · exact no_submit_in_prefix env d data form.fields sel (targetUrlOf d)
                    (by simpa [List.append_assoc] using h2)
                · simp at h2
              · simp at h
            | some sb =>
              rw [hsb] at ht
              dsimp only at ht
              refine ⟨[Event.goto (targetUrlOf d), Event.waitMs 2000] ++
                  SmartSubmissionBot.revealEventsOf env d ++
                  SmartSubmissionBot.fillFormWithMapping env form.fields data,
                (SmartSubmissionBot.submitFormWithSelector env sb.selector).2 ++
                  (if (SmartSubmissionBot.submitFormWithSelector env sb.selector).1 then
                    [Event.waitMs 3000] else []), ?_, ?_, ?_⟩
              · rw [ht]
                simp [List.append_assoc]
              · rw [ht] at hmem
                rcases List.mem_append.mp hmem with h | h
                · rcases List.mem_append.mp h with h2 | h2
                  · exfalso
                    exact no_submit_in_prefix env d data form.fields sel (targetUrlOf d)
                      (by simpa [List.append_assoc] using h2)
                  · exfalso
                    simp at h2
                · exact h
              · intro e he
                rcases sub_tail_cases env sb.selector e he with rfl | rfl | rfl <;> rfl
          · intro hcapf
            have hcapL : (if sc.requiresCaptcha then [Event.waitMs 30000] else []) =
                [] := by simp [hcapf]
            rw [hcapL] at ht
            rw [ht]
            intro hmem
            rcases List.mem_append.mp hmem with h | h
            · rcases List.mem_append.mp h with h2 | h2
              · rcases List.mem_append.mp h2 with h3 | h3
                · exact no_wait30_nav_reveal env d (targetUrlOf d)
                    (by simpa [List.append_assoc] using h3)
                · have hfe := List.all_eq_true.mp
                    (fillForm_all_fill env data form.fields) _ h3
                  exact isFill_not_wait _ 30000 hfe rfl
              · simp at h2
            · cases hsb : form.submitButton with
              | none => rw [hsb] at h; simp at h
              | some sb =>
                rw [hsb] at h
                rcases sub_tail_cases env sb.selector _ h with h4 | h4 | h4 <;> simp at h4
        · have hf' : sc.hasForm = false := by
            cases hb : sc.hasForm with
            | false => rfl
            | true => exact absurd hb hf
          exact noformCase (Or.inl hf')

/-- The C9 witness submit button. -/
def w9btn : SubmitBtnCfg := { selector := "#send".data }

/-- The C9 witness form block: one email field and a submit button. -/
def w9form : FormCfg :=
  { fields := [( "email".data, { selector := "#em".data, type := "text".data })],
    submitButton := some w9btn }

/-- The C9 witness config: a CAPTCHA-protected form. -/
def w9cfg : SiteConfig :=
  { url := "https://w9.test".data, hasForm := true, requiresCaptcha := true,
    form := some w9form }

/-- The C9 witness directory. -/
def w9dir : Directory :=
  { name := "W9 Dir".data, url := "https://w9.test".data,
    submit_url := [], submit_button := [] }

/-- The C9 witness environment: both the field and the submit selector
resolve. -/
def w9env : BrowserEnv :=
  { dom := { clickables := [], buttonTexts := [] },
    present := [ "#em".data, "#send".data] }

/-- The C9 witness submission data. -/
def w9data : List (Str × Str) := [( "email".data, "a@b.test".data)]

theorem c9_witness :
    ∃ pre post,
      (SmartSubmissionBot.submitToDirectory w9env defaultBotCfg
          [( "W9 Dir".data, w9cfg)] w9dir w9data).2 =
        pre ++ Event.waitMs 30000 :: post ∧
      Event.submitClicked ( "#send".data) ∈ post ∧
      (∀ e ∈ post, isFillEvent e = false) :=
  (c9_captcha_grace_wait w9env defaultBotCfg [( "W9 Dir".data, w9cfg)]
      w9dir w9data w9cfg (by decide)).1 (by decide) ( "#send".data) (by decide)

theorem formNeLink : ( "form".data : Str) ≠ "link".data := by decide

/-- Behaviour of the per-result config construction on a successful
inspection: never manual, never an error, and the method is `link`
exactly when no form exists and submission links do. -/
theorem siteConfigOfResult_ok (r : InspectionResult) (h : r.error = none) :
    (SiteInspector.siteConfigOfResult r).manualSubmissionRequired = false ∧
    (SiteInspector.siteConfigOfResult r).error = none ∧
    ((SiteInspector.siteConfigOfResult r).submissionMethod = some ( "link".data) ∨
     (SiteInspector.siteConfigOfResult r).submissionMethod = some ( "form".data)) ∧
    ((SiteInspector.siteConfigOfResult r).submissionMethod = some ( "link".data) ↔
       r.forms = [] ∧ r.submissionLinks ≠ []) := by
  unfold SiteInspector.siteConfigOfResult
  rw [h]
  dsimp only
  cases hf : r.forms with
  | nil =>
    cases hl : r.submissionLinks with
    | nil => simp [formNeLink]
    | cons l0 ls =>
      dsimp only
      rw [if_pos (by simp [hf])]
      simp
  | cons f0 fs =>
    cases hl : r.submissionLinks with
    | nil => simp [formNeLink]
    | cons l0 ls =>
      dsimp only
      rw [if_neg (by simp [hf])]
      simp [formNeLink]

theorem inspect_forms_nil (page : DomPage) (url nm : Str) :
    ((SiteInspector.inspectSite (.ok page) url nm).forms = [] ↔
      page.forms = []) := by
  unfold SiteInspector.inspectSite
  dsimp only
  cases page.forms <;> simp

theorem inspect_links_any (page : DomPage) (url nm : Str) :
    ((SiteInspector.inspectSite (.ok page) url nm).submissionLinks ≠ [] ↔
      (page.anchors.any (fun a =>
        strIncludes a.href ( "submit".data) || strIncludes a.href ( "add".data) ||
          strIncludes a.href ( "register".data))) = true) := by
  unfold SiteInspector.inspectSite
  dsimp only
  rw [List.any_eq_true]
  constructor
  · intro hne
    rcases List.exists_mem_of_ne_nil _ hne with ⟨x, hx⟩
    obtain ⟨a, ha, rfl⟩ := List.mem_map.mp hx
    exact ⟨a, (List.mem_filter.mp ha).1, (List.mem_filter.mp ha).2⟩
  · rintro ⟨a, ha, hp⟩ hnil
    rw [List.map_eq_nil_iff] at hnil
    rw [List.eq_nil_iff_forall_not_mem] at hnil
    exact hnil a (List.mem_filter.mpr ⟨ha, hp⟩)

/-- A page with one form whose only control is hidden: the analysis
succeeds with zero visible fields. -/
def c5page : DomPage :=
  { forms := [{ action := "https://z.test/post".data, method := "POST".data,
                controls := [{ type := "hidden".data, name := "csrf".data,
                               id := [], placeholder := [], required := false,
                               label := [] }],
                submitBtnEl := none }],
    anchors := [], title := "Z".data,
    recaptchaMarker := false, hcaptchaMarker := false }

/-- Claim C5 counterexample: a successfully analysed site whose only form
has zero visible fields yields a SiteConfig with no
`manualSubmissionRequired` flag and no error string — refuting the claim
that zero fields forces the manual-required config. -/
theorem c5_counterexample :
    (SiteInspector.siteConfigOfResult (SiteInspector.inspectSite (.ok c5page)
        ( "https://z.test".data) ( "Z Dir".data))).manualSubmissionRequired = false ∧
    (SiteInspector.siteConfigOfResult (SiteInspector.inspectSite (.ok c5page)
        ( "https://z.test".data) ( "Z Dir".data))).error = none ∧
    ((SiteInspector.inspectSite (.ok c5page) ( "https://z.test".data)
        ( "Z Dir".data)).forms.map (fun f => f.fields)) = [[]] :=
  ⟨rfl, rfl, rfl⟩

/-- Claim C5 (amended): only a failed analysis (navigation timeout etc.)
makes the profile builder emit `manualSubmissionRequired := true` with the
error string; a successful analysis — also with zero forms or zero
fields — produces a config without the manual flag and without an error.
Both paths are total: the failure is caught data, never a raise. -/
theorem c5_manual_only_on_failure (outcome : InspectOutcome) (url nm : Str) :
    (∀ msg, outcome = .failure msg →
       (SiteInspector.siteConfigOfResult
           (SiteInspector.inspectSite outcome url nm)).manualSubmissionRequired = true ∧
       (SiteInspector.siteConfigOfResult
           (SiteInspector.inspectSite outcome url nm)).error = some msg) ∧
    (∀ page, outcome = .ok page →
       (SiteInspector.siteConfigOfResult
           (SiteInspector.inspectSite outcome url nm)).manualSubmissionRequired = false ∧
       (SiteInspector.siteConfigOfResult
           (SiteInspector.inspectSite outcome url nm)).error = none) := by
  constructor
  · intro msg hmsg
    subst hmsg
    exact ⟨rfl, rfl⟩
  · intro page hp
    subst hp
    have h := siteConfigOfResult_ok
      (SiteInspector.inspectSite (.ok page) url nm) rfl
    exact ⟨h.1, h.2.1⟩

theorem c5_witness :
    (SiteInspector.siteConfigOfResult (SiteInspector.inspectSite
        (.failure ( "nav timeout".data)) ( "https://w5.test".data)
        ( "W5 Dir".data))).manualSubmissionRequired = true ∧
    (SiteInspector.siteConfigOfResult (SiteInspector.inspectSite
        (.failure ( "nav timeout".data)) ( "https://w5.test".data)
        ( "W5 Dir".data))).error = some ( "nav timeout".data) :=
  (c5_manual_only_on_failure (.failure ( "nav timeout".data))
      ( "https://w5.test".data) ( "W5 Dir".data)).1 ( "nav timeout".data) rfl

/-- A successfully inspected page with no forms and no anchors at all. -/
def c4page : DomPage :=
  { forms := [], anchors := [], title := [],
    recaptchaMarker := false, hcaptchaMarker := false }

/-- Claim C4 counterexample: a successful inspection with no form fields
and no submission-intent anchor produces `submissionMethod = "form"` with
no manual flag and no error — refuting the claimed `"manual"` fallback
with an explicit error reason. -/
theorem c4_counterexample :
    (SiteInspector.siteConfigOfResult (SiteInspector.inspectSite (.ok c4page)
        ( "https://c4.test".data) ( "C4 Dir".data))).submissionMethod =
      some ( "form".data) ∧
    (SiteInspector.siteConfigOfResult (SiteInspector.inspectSite (.ok c4page)
        ( "https://c4.test".data) ( "C4 Dir".data))).manualSubmissionRequired = false ∧
    (SiteInspector.siteConfigOfResult (SiteInspector.inspectSite (.ok c4page)
        ( "https://c4.test".data) ( "C4 Dir".data))).error = none :=
  ⟨rfl, rfl, rfl⟩

/-- Claim C4 (amended): for a successful inspection, `submissionMethod`
is `"link"` exactly when the page has zero forms and at least one anchor
whose href contains submit/add/register (href only — anchor text is not
consulted); every other successful inspection gets `"form"`, even with
zero forms and zero links; only a failed inspection yields the
manual-required config, which carries an error string and no
`submissionMethod` at all. -/
theorem c4_submission_method (page : DomPage) (url nm : Str) (msg : Str) :
    ((SiteInspector.siteConfigOfResult (SiteInspector.inspectSite (.ok page)
        url nm)).submissionMethod = some ( "link".data) ↔
      page.forms = [] ∧
        (page.anchors.any (fun a =>
          strIncludes a.href ( "submit".data) || strIncludes a.href ( "add".data) ||
            strIncludes a.href ( "register".data))) = true) ∧
    ((SiteInspector.siteConfigOfResult (SiteInspector.inspectSite (.ok page)
        url nm)).submissionMethod = some ( "link".data) ∨
     (SiteInspector.siteConfigOfResult (SiteInspector.inspectSite (.ok page)
        url nm)).submissionMethod = some ( "form".data)) ∧
    (SiteInspector.siteConfigOfResult (SiteInspector.inspectSite (.ok page)
        url nm)).manualSubmissionRequired = false ∧
    ((SiteInspector.siteConfigOfResult (SiteInspector.inspectSite (.failure msg)
        url nm)).submissionMethod = none ∧
     (SiteInspector.siteConfigOfResult (SiteInspector.inspectSite (.failure msg)
        url nm)).manualSubmissionRequired = true ∧
     (SiteInspector.siteConfigOfResult (SiteInspector.inspectSite (.failure msg)
        url nm)).error = some msg) := by
  have h := siteConfigOfResult_ok (SiteInspector.inspectSite (.ok page) url nm) rfl
  refine ⟨?_, h.2.2.1, h.1, rfl, rfl, rfl⟩
  rw [h.2.2.2, inspect_forms_nil, inspect_links_any]

/-- A page with one submission-intent anchor and no forms. -/
def w4page : DomPage :=
  { forms := [],
    anchors := [{ text := "Submit here".data, href := "/submit".data }],
    title := [], recaptchaMarker := false, hcaptchaMarker := false }

theorem c4_witness :
    (SiteInspector.siteConfigOfResult (SiteInspector.inspectSite (.ok w4page)
        ( "https://w4.test".data) ( "W4 Dir".data))).submissionMethod =
      some ( "link".data) :=
  ((c4_submission_method w4page ( "https://w4.test".data) ( "W4 Dir".data)
      ( "err".data)).1).mpr (by decide)

/-- A page on which the class selector `.c` resolves but the data-modal
selector does not. -/
def c6page : PageDom := { clickables := [ ".c".data], buttonTexts := [] }

/-- A reveal snippet carrying both a data-modal attribute and a class. -/
def c6html : Str := "<a data-modal=\"m\" class=\"c\"></a>".data

/-- Claim C6 counterexample: the data-modal tier matches but its click
fails, and that failure propagates — tier 4 (the class token, which would
succeed on this page) is never attempted, and the raised error is the
click failure, not the "could not find button" condition; so the chain
does not raise "control not found" only when all four tiers fail. -/
theorem c6_counterexample :
    SmartSubmissionBot.clickButtonFromHtml c6page c6html =
      .error (.selectorNotFound (dataModalSelector ( "m".data))) ∧
    pageClick c6page (classSelector ( "c".data)) = true :=
  ⟨rfl, rfl⟩

/-- Claim C6 (amended): the four tiers are attempted in order — a
markup-free snippet is used directly as a selector (whose click failure
propagates immediately), the snippet's trimmed inner text is matched
against live button/link text, the data-modal attribute value is clicked,
and the first class token is clicked; a tier whose click fails raises that
failure without attempting later tiers; the explicit "could not find
button" error is raised exactly when the snippet contains markup, the
text tier does not click, and neither a data-modal nor a class attribute
can be extracted. -/
theorem c6_reveal_resolution_tiers (page : PageDom) (html : Str) :
    (strIncludes html ( "<".data) = false →
       SmartSubmissionBot.clickButtonFromHtml page html =
         (if pageClick page html then .ok (.selector html)
          else .error (.selectorNotFound html))) ∧
    (∀ t, strIncludes html ( "<".data) = true →
       jsTextBetween html = some t → jsTrim t ≠ [] →
       findByText page (jsTrim t) = true →
       SmartSubmissionBot.clickButtonFromHtml page html =
         .ok (.byText (jsTrim t))) ∧
    (SmartSubmissionBot.clickButtonFromHtml page html =
        .error .couldNotFindButton ↔
      strIncludes html ( "<".data) = true ∧
      (((jsTextBetween html).map jsTrim).getD [] = [] ∨
        findByText page (((jsTextBetween html).map jsTrim).getD []) = false) ∧
      jsAttrMatch ( "data-modal=\"".data) html = none ∧
      jsAttrMatch ( "class=\"".data) html = none) := by
  refine ⟨?_, ?_, ?_⟩
  · intro h
    simp [SmartSubmissionBot.clickButtonFromHtml, h]
  · intro t hlt ht htr hfind
    simp [SmartSubmissionBot.clickButtonFromHtml, hlt, ht, htr, hfind]
  · unfold SmartSubmissionBot.clickButtonFromHtml
    by_cases hlt : strIncludes html ( "<".data) = true
    · rw [if_neg (by simp [hlt])]
      dsimp only
      by_cases h2 : (((jsTextBetween html).map jsTrim).getD []) ≠ [] ∧
          findByText page (((jsTextBetween html).map jsTrim).getD []) = true
      · rw [if_pos h2]
        simp [hlt, h2.1, h2.2]
      · rw [if_neg h2]
        cases hdm : jsAttrMatch ( "data-modal=\"".data) html with
        | some v =>
          dsimp only
          by_cases hp : pageClick page (dataModalSelector v) = true
          · rw [if_pos hp]; simp [hdm]
          · rw [if_neg hp]; simp [hdm]
        | none =>
          cases hcl : jsAttrMatch ( "class=\"".data) html with
          | some cls =>
            dsimp only
            by_cases hp : pageClick page (classSelector cls) = true
            · rw [if_pos hp]; simp [hcl]
            · rw [if_neg hp]; simp [hcl]
          | none =>
            dsimp only
            constructor
            · intro _
              refine ⟨hlt, ?_, rfl, rfl⟩
              rcases not_and_or.mp h2 with h | h
              · exact Or.inl (not_not.mp h)
              · refine Or.inr ?_
                cases hfb : findByText page
                    (((jsTextBetween html).map jsTrim).getD []) with
                | false => rfl
                | true => exact absurd hfb h
            · intro _
              rfl
    · rw [if_pos (by simp [hlt])]
      by_cases hp : pageClick page html = true
      · rw [if_pos hp]; simp [hlt]
      · rw [if_neg hp]; simp [hlt]

/-- A page with a clickable bare selector and a button containing the
text `Submit`. -/
def c6wpage : PageDom :=
  { clickables := [ "#go".data], buttonTexts := [ "Submit here".data] }

theorem c6_witness :
    SmartSubmissionBot.clickButtonFromHtml c6wpage ( "#go".data) =
      .ok (.selector ( "#go".data)) ∧
    SmartSubmissionBot.clickButtonFromHtml c6wpage
        ( "<button>Submit</button>".data) =
      .ok (.byText ( "Submit".data)) :=
  ⟨((c6_reveal_resolution_tiers c6wpage ( "#go".data)).1 (by decide)).trans rfl,
   (c6_reveal_resolution_tiers c6wpage ( "<button>Submit</button>".data)).2.1
     ( "Submit".data) (by decide) (by decide) (by decide) (by decide)⟩

end LinkDir
